import Mathlib

/-!
Verification development for the sales-email quality system.

Shallow embedding of `src/sales_personalized_email/email_quality_validator.py`,
`src/sales_personalized_email/test_runner.py`,
`src/sales_personalized_email/failure_analyzer.py` and `auto_improve_crew.py`.

Python dictionaries for the fixed-key inputs are modelled as structures whose
fields default to the Python `dict.get` defaults (empty string, 0, empty list).
Python string values are manipulated as their character lists (`String.data`)
through structurally recursive helpers so that every scorer run on a concrete
email evaluates inside the kernel: `pyInL` is the `in` substring test, `lower`
is `str.lower`, `trimL` is `str.strip`, `pyWordsL` is no-argument `str.split`
(all restricted to ASCII, which covers every string constant in the source).
Scores are `Int` because the selling-intent check adds a negative penalty
before clamping.  Wall-clock fields (`execution_time`, timestamps) are
omitted: no claim mentions them.
-/

namespace EmailSys

/-- Python substring containment `needle in hay` on character lists. -/
def pyInL (needle hay : List Char) : Bool :=
  hay.tails.any (fun t => needle.isPrefixOf t)

/-- Python substring containment on strings. -/
def pyIn (needle hay : String) : Bool :=
  pyInL needle.data hay.data

/-- Python `any(n in hay for n in needles)`. -/
def anyInL (needles : List String) (hay : List Char) : Bool :=
  needles.any (fun n => pyInL n.data hay)

/-- Python `str.lower` (ASCII). -/
def lower (l : List Char) : List Char :=
  l.map Char.toLower

/-- Python `str.strip()`: drop leading and trailing whitespace. -/
def trimL (l : List Char) : List Char :=
  (((l.dropWhile Char.isWhitespace).reverse).dropWhile Char.isWhitespace).reverse

/-- Accumulator loop for no-argument `str.split`: the accumulator holds the
current word reversed. -/
def wordsAux : List Char → List Char → List (List Char)
  | [], acc => if acc.isEmpty then [] else [acc.reverse]
  | c :: rest, acc =>
    if c.isWhitespace then
      if acc.isEmpty then wordsAux rest [] else acc.reverse :: wordsAux rest []
    else wordsAux rest (c :: acc)

/-- Python `str.split()` with no separator: maximal whitespace-free runs. -/
def pyWordsL (l : List Char) : List (List Char) :=
  wordsAux l []

/-- Python `str.split(sep)` for a one-character separator. -/
def splitChar (sep : Char) : List Char → List (List Char)
  | [] => [[]]
  | c :: rest =>
    if c = sep then [] :: splitChar sep rest
    else
      match splitChar sep rest with
      | [] => [[c]]
      | h :: t => (c :: h) :: t

/-- Python `str.split('\n\n')`: split at leftmost non-overlapping blank-line
separators. -/
def splitNN : List Char → List (List Char)
  | '\n' :: '\n' :: rest => [] :: splitNN rest
  | c :: rest =>
    match splitNN rest with
    | [] => [[c]]
    | h :: t => (c :: h) :: t
  | [] => [[]]

/-- Python `str.replace(pat, rep)` (leftmost, non-overlapping, all
occurrences), fuelled by the input length so the recursion is structural. -/
def replaceFuel (pat rep : List Char) : Nat → List Char → List Char
  | 0, l => l
  | _ + 1, [] => []
  | fuel + 1, c :: rest =>
    if pat.isPrefixOf (c :: rest) then
      rep ++ replaceFuel pat rep fuel (rest.drop (pat.length - 1))
    else
      c :: replaceFuel pat rep fuel rest

/-- Python `str.replace` (the source only calls it with the non-empty pattern
`Subject:`). -/
def replaceL (pat rep l : List Char) : List Char :=
  replaceFuel pat rep l.length l

/-- The `research_data` dictionary as consumed by the validator
(`linkedin_confidence`, `achievements`, `company_achievements`, defaults as
in `dict.get`). -/
structure ResearchData where
  linkedin_confidence : Int := 0
  achievements : List String := []
  company_achievements : List String := []
deriving Repr, DecidableEq

/-- The `inputs` dictionary as consumed by the validator; a missing key is the
empty string, exactly the `dict.get(key, '')` default. -/
structure Inputs where
  first_name : String := ""
  last_name : String := ""
  company : String := ""
  title : String := ""
  selling_intent : String := ""
deriving Repr, DecidableEq

/-- Keyword table from `_check_achievement_recognition`. -/
def achievement_keywords : List String :=
  ["congratulations", "impressive", "notable", "achievement", "success", "proud", "recognized"]

/-- Customer allow-list from `_check_industry_context`. -/
def keboola_customers : List String := ["home credit", "rohlik", "p3 logistic", "brix"]

/-- Metric patterns from `_check_industry_context`. -/
def industry_metrics : List String :=
  ["70%", "80%", "50%", "reduction", "unified data", "days vs months"]

/-- Generic data-platform terms from `_check_industry_context`. -/
def data_keywords : List String := ["data platform", "data stack", "data operations", "analytics"]

/-- Action-value phrases from `_check_value_proposition`. -/
def value_keywords : List String :=
  ["help you", "achieve similar", "opportunities", "optimize", "streamline"]

/-- Generic value words from `_check_value_proposition`. -/
def generic_value : List String := ["data costs", "efficiency", "operations", "similar results"]

/-- The 5-point first-name greeting credit inside `_check_structure_compliance`:
`first_name = inputs.get('first_name','').strip()`, then award 5 iff the
stripped name is truthy (nonempty), its first character is upper-case, and
`"Hi {first_name}"` occurs in the email. -/
def first_name_points (email : String) (inputs : Inputs) : Int :=
  let fn := trimL inputs.first_name.data
  if !fn.isEmpty && (fn.headD 'A').isUpper && pyInL ("Hi ".data ++ fn) email.data then 5
  else 0

/-- Embeds `_check_achievement_recognition` (max 10). -/
def check_achievement_recognition (email : String) (research_data : ResearchData) : Int :=
  let el := lower email.data
  let achievements := research_data.achievements
  if research_data.linkedin_confidence ≥ 70 then
    if anyInL achievement_keywords el && !achievements.isEmpty then
      if (achievements.take 3).any (fun a => pyInL (lower a.data) el) then 10 else 8
    else 4
  else
    if anyInL achievement_keywords el then 7 else 3

/-- Embeds `_check_industry_context` (max 10); the `company` local in the source is
computed but never used. -/
def check_industry_context (email : String) (_inputs : Inputs) : Int :=
  let el := lower email.data
  if anyInL keboola_customers el then 10
  else if anyInL industry_metrics el then 8
  else if anyInL data_keywords el then 5
  else 0

/-- Embeds `_check_value_proposition` (raw, up to 10; the caller caps at 8). -/
def check_value_proposition (email : String) (inputs : Inputs) : Int :=
  let el := lower email.data
  if pyInL (lower inputs.company.data) el && anyInL value_keywords el then 10
  else if anyInL generic_value el then 6
  else 0

/-- Match of the regex `15[-\x5cs]?minute call` at one position: `15`, then an
optional dash or whitespace character, then `minute call`. -/
def fifteen_min_at : List Char → Bool
  | '1' :: '5' :: rest =>
      "minute call".data.isPrefixOf rest ||
      (match rest with
       | c :: rest2 => (c == '-' || c.isWhitespace) && "minute call".data.isPrefixOf rest2
       | [] => false)
  | _ => false

/-- Embeds `re.search` over the CTA pattern list of `_check_call_to_action`; all
patterns other than the first are literal substrings. -/
def cta_regex_match (e : List Char) : Bool :=
  e.tails.any fifteen_min_at ||
  anyInL ["brief call", "quick call", "demo", "consultation", "meeting", "discuss", "explore"] e

/-- Embeds `_check_call_to_action` (max 5), applied to `email.lower()`. -/
def check_call_to_action (email : String) : Int :=
  if cta_regex_match (lower email.data) then 5 else 0

/-- Embeds `_check_company_research_depth` (raw, up to 10; the caller caps at 8). -/
def check_company_research_depth (email : String) (research_data : ResearchData) : Int :=
  let el := lower email.data
  let n := research_data.company_achievements.length
  if n ≥ 2 then 10
  else if n = 1 then 7
  else if pyInL "impressive work".data el || pyInL "doing well".data el then 4
  else 0

/-- Role tables from `_check_role_relevance`. -/
def technical_roles : List String := ["cto", "engineer", "developer", "architect", "technical", "data"]

/-- Business role substrings from `_check_role_relevance`. -/
def business_roles : List String := ["ceo", "cmo", "vp", "director", "manager", "head"]

/-- Technical vocabulary from `_check_role_relevance`. -/
def technical_keywords : List String := ["technical", "integration", "api", "automation", "platform"]

/-- Business vocabulary from `_check_role_relevance`. -/
def business_keywords : List String := ["business", "roi", "efficiency", "costs", "revenue"]

/-- Embeds `_check_role_relevance` (max 5): the three `if/elif/else` arms each may
return 5 (or 4); every arm falls through to the shared `return 2`. -/
def check_role_relevance (email : String) (inputs : Inputs) : Int :=
  let title := lower inputs.title.data
  let el := lower email.data
  if technical_roles.any (fun r => pyInL r.data title) then
    if anyInL technical_keywords el then 5 else 2
  else if business_roles.any (fun r => pyInL r.data title) then
    if anyInL business_keywords el then 5 else 2
  else
    if anyInL (technical_keywords ++ business_keywords) el then 4 else 2

/-- Tail of the regex `Hi [A-Z][a-z]+,` after the first mandatory lower-case
letter: zero or more lower-case letters, then a comma. -/
def comma_after_lowers : List Char → Bool
  | ',' :: _ => true
  | c :: rest => c.isLower && comma_after_lowers rest
  | [] => false

/-- The `[a-z]+,` part: one lower-case letter then `comma_after_lowers`. -/
def lower_then_comma : List Char → Bool
  | c :: rest => c.isLower && comma_after_lowers rest
  | [] => false

/-- One-position match for the regex `Hi [A-Z][a-z]+,`. -/
def hi_regex_at : List Char → Bool
  | 'H' :: 'i' :: ' ' :: c :: rest => c.isUpper && lower_then_comma rest
  | _ => false

/-- Embeds `_check_tone_and_flow` (raw, up to 15; caller caps at 12).  Note the
conversational phrases `I believe` / `I noticed` are matched against the
lower-cased email exactly as in the source, so only `would you` and
`given your` can ever fire. -/
def check_tone_and_flow (email : String) : Int :=
  let el := lower email.data
  let s1 : Int := if email.data.tails.any hi_regex_at then 3 else 0
  let s2 : Int :=
    if anyInL ["given", "since", "because", "therefore", "recently", "we helped"] el
    then 4 else 0
  let s3 : Int := if anyInL ["Best regards", "Best", "Regards", "Sincerely"] email.data then 3 else 0
  let s4 : Int := if anyInL ["I believe", "would you", "I noticed", "given your"] el then 5 else 0
  min (s1 + s2 + s3 + s4) 15

/-- Embeds `_check_length_and_crispness` (raw, up to 10; caller caps at 8). -/
def check_length_and_crispness (email : String) : Int :=
  let words : Int := ((pyWordsL email.data).length : Int)
  let paragraphs : Int :=
    (((splitNN email.data).filter (fun p => !(trimL p).isEmpty)).length : Int)
  let word_score : Int :=
    if 120 ≤ words ∧ words ≤ 180 then 5
    else if 100 ≤ words ∧ words ≤ 220 then 3
    else 1
  let para_score : Int :=
    if 4 ≤ paragraphs ∧ paragraphs ≤ 6 then 5
    else if 3 ≤ paragraphs ∧ paragraphs ≤ 7 then 3
    else 1
  word_score + para_score

/-- First line beginning with `Subject:`, with the marker removed and the rest
stripped (Python `line.replace('Subject:','').strip()`). -/
def find_subject_line : List (List Char) → List Char
  | [] => []
  | l :: ls =>
    if "Subject:".data.isPrefixOf l then trimL (replaceL "Subject:".data [] l)
    else find_subject_line ls

/-- Value tokens from `_check_subject_line`. -/
def subject_value_words : List String := ["50%", "70%", "80%", "cut costs", "reduce", "data"]

/-- Embeds `_check_subject_line` (max 5). -/
def check_subject_line (email : String) (inputs : Inputs) : Int :=
  let subject_line := find_subject_line (splitChar '\n' (trimL email.data))
  if subject_line.isEmpty then 0
  else
    let s1 : Int := if pyInL inputs.first_name.data subject_line then 2 else 0
    let s2 : Int := if pyInL inputs.company.data subject_line then 1 else 0
    let s3 : Int := if anyInL subject_value_words (lower subject_line) then 2 else 0
    min (s1 + s2 + s3) 5

/-- LinkedIn confidence banding inside `_check_personalization_quality`. -/
def linkedin_confidence_points (research_data : ResearchData) : Int :=
  if research_data.linkedin_confidence ≥ 90 then 12
  else if research_data.linkedin_confidence ≥ 70 then 10
  else 6

/-- Result dictionary of `_check_structure_compliance`: `total` plus the
`details` entries. -/
structure StructureResult where
  total : Int
  first_name : Int
  achievement : Int
  industry_context : Int
  value_proposition : Int
  call_to_action : Int
deriving Repr, DecidableEq

/-- Embeds `_check_structure_compliance` (35-point dimension). -/
def check_structure_compliance (email : String) (research_data : ResearchData)
    (inputs : Inputs) : StructureResult :=
  let fn := first_name_points email inputs
  let ach := check_achievement_recognition email research_data
  let ind := check_industry_context email inputs
  let vp := min 8 (check_value_proposition email inputs)
  let cta := check_call_to_action email
  { total := fn + ach + ind + vp + cta
    first_name := fn, achievement := ach, industry_context := ind
    value_proposition := vp, call_to_action := cta }

/-- Result dictionary of `_check_personalization_quality`. -/
structure PersonalizationResult where
  total : Int
  linkedin_confidence : Int
  company_research : Int
  role_relevance : Int
deriving Repr, DecidableEq

/-- Embeds `_check_personalization_quality` (25-point dimension). -/
def check_personalization_quality (email : String) (research_data : ResearchData)
    (inputs : Inputs) : PersonalizationResult :=
  let li := linkedin_confidence_points research_data
  let cr := min 8 (check_company_research_depth email research_data)
  let role := check_role_relevance email inputs
  { total := li + cr + role
    linkedin_confidence := li, company_research := cr, role_relevance := role }

/-- Result dictionary of `_check_message_quality`. -/
structure MessageResult where
  total : Int
  tone_flow : Int
  length_crispness : Int
  subject_line : Int
deriving Repr, DecidableEq

/-- Embeds `_check_message_quality` (25-point dimension). -/
def check_message_quality (email : String) (inputs : Inputs) : MessageResult :=
  let tone := min 12 (check_tone_and_flow email)
  let len := min 8 (check_length_and_crispness email)
  let subj := check_subject_line email inputs
  { total := tone + len + subj
    tone_flow := tone, length_crispness := len, subject_line := subj }

/-- Result dictionary of `_check_selling_intent_compliance`.  The two branches
of the source populate different detail keys, modelled with `Option` fields
(`none` = key absent from the Python dict). -/
structure IntentResult where
  total : Int
  intent_specified : Option Bool
  keyword_coverage : Int
  use_case_focus : Option Int
  generic_penalty : Option Int
deriving Repr, DecidableEq

/-- Intent keyword extraction: words of the lowered, stripped intent longer
than 2 characters. -/
def intent_keywords_of (selling_intent : List Char) : List (List Char) :=
  (pyWordsL selling_intent).filter (fun w => w.length > 2)

/-- Keyword-coverage banding of `_check_selling_intent_compliance` (max 8).
The source bands the float ratio `keywords_found / len(intent_keywords)`
against 0.8 / 0.6 / 0.4 / 0.2 (ratio 0 when there are no keywords); this is
modelled by the exact cross-multiplied integer comparisons
(`5*found >= 4*len` etc.), which agree with the float comparisons at every
realistic keyword count. -/
def keyword_coverage_score (keywords_found n : Nat) : Int :=
  if n = 0 then 0
  else if 5 * keywords_found ≥ 4 * n then 8
  else if 5 * keywords_found ≥ 3 * n then 6
  else if 5 * keywords_found ≥ 2 * n then 4
  else if 5 * keywords_found ≥ n then 2
  else 0

/-- Use-case-focus accumulation of `_check_selling_intent_compliance` (raw;
the caller takes `min 5`). -/
def use_case_focus_score (selling_intent email_lower : List Char)
    (intent_keywords : List (List Char)) : Int :=
  if pyInL "coffee machine".data selling_intent then
    (if pyInL "coffee".data email_lower then 2 else 0) +
    (if anyInL ["facilities", "consumption", "maintenance", "machine"] email_lower then 2 else 0) +
    (if anyInL ["predictive", "analytics", "monitoring"] email_lower then 1 else 0)
  else if pyInL "crm".data selling_intent then
    (if pyInL "crm".data email_lower then 3 else 0) +
    (if anyInL ["customer", "segmentation", "lead scoring"] email_lower then 2 else 0)
  else if pyInL "supply chain".data selling_intent then
    (if anyInL ["supply chain", "logistics", "inventory"] email_lower then 3 else 0) +
    (if anyInL ["optimization", "visibility", "tracking"] email_lower then 2 else 0)
  else
    if intent_keywords.any (fun k => pyInL k email_lower) then 3 else 0

/-- Generic-messaging penalty of `_check_selling_intent_compliance`
(0, -2 or -3). -/
def generic_penalty_score (selling_intent email_lower : List Char) : Int :=
  if pyInL "coffee machine".data selling_intent then
    if pyInL "data platform".data email_lower && !(pyInL "coffee".data email_lower) then -3
    else if anyInL ["generic data", "data transformation", "analytics platform"] email_lower
            && !(pyInL "coffee".data email_lower) then -2
    else 0
  else 0

/-- Embeds `_check_selling_intent_compliance` (15-point dimension, CRITICAL). -/
def check_selling_intent_compliance (email : String) (inputs : Inputs) : IntentResult :=
  let selling_intent := trimL (lower inputs.selling_intent.data)
  let email_lower := lower email.data
  if selling_intent.isEmpty then
    { total := 15, intent_specified := some true, keyword_coverage := 15
      use_case_focus := none, generic_penalty := none }
  else
    let intent_keywords := intent_keywords_of selling_intent
    let keywords_found := (intent_keywords.filter (fun k => pyInL k email_lower)).length
    let keyword_score := keyword_coverage_score keywords_found intent_keywords.length
    let use_case_score := use_case_focus_score selling_intent email_lower intent_keywords
    let generic_penalty := generic_penalty_score selling_intent email_lower
    let total := keyword_score + min 5 use_case_score + generic_penalty
    { total := max 0 total, intent_specified := none, keyword_coverage := keyword_score
      use_case_focus := some (min 5 use_case_score), generic_penalty := some generic_penalty }

/-- The `details` mapping of a `QualityScore`; Python keys `structure`,
`personalization`, `message`, `selling_intent` become the `*_res` fields. -/
structure ScoreDetails where
  structure_res : StructureResult
  personalization_res : PersonalizationResult
  message_res : MessageResult
  selling_intent_res : IntentResult
deriving Repr, DecidableEq

/-- The `QualityScore` dataclass. -/
structure QualityScore where
  total_score : Int
  structure_score : Int
  personalization_score : Int
  message_score : Int
  intent_score : Int
  details : ScoreDetails
deriving Repr, DecidableEq

/-- Embeds `EmailQualityValidator.validate_email`. -/
def validate_email (email_content : String) (research_data : ResearchData)
    (inputs : Inputs) : QualityScore :=
  let s := check_structure_compliance email_content research_data inputs
  let p := check_personalization_quality email_content research_data inputs
  let m := check_message_quality email_content inputs
  let i := check_selling_intent_compliance email_content inputs
  { total_score := s.total + p.total + m.total + i.total
    structure_score := s.total, personalization_score := p.total
    message_score := m.total, intent_score := i.total
    details := { structure_res := s, personalization_res := p
                 message_res := m, selling_intent_res := i } }

/-- Embeds `EmailQualityValidator.should_regenerate`. -/
def should_regenerate (score : QualityScore) : Bool × String :=
  if score.total_score < 70 then
    (true, "Low quality score - immediate regeneration required")
  else if score.total_score < 85 then
    (true, "Medium quality score - single optimization attempt")
  else
    (false, "Quality score acceptable")

/-- Embeds `EmailQualityValidator.get_improvement_suggestions`, as the insertion-order
association list of the produced Python dict (all keys are distinct). -/
def get_improvement_suggestions (score : QualityScore) : List (String × String) :=
  (if score.structure_score < 32 then
    [("structure", "Improve email structure - ensure proper greeting, achievement recognition, industry context, value proposition, and CTA")] else []) ++
  (if score.personalization_score < 24 then
    [("personalization", "Enhance personalization - improve LinkedIn research and company-specific context")] else []) ++
  (if score.message_score < 24 then
    [("message", "Improve message quality - work on tone, flow, length and subject line")] else []) ++
  (if score.details.structure_res.first_name = 0 then
    [("first_name", "Ensure first name is capitalized and properly formatted in greeting")] else []) ++
  (if score.details.structure_res.achievement < 7 then
    [("achievement", "Add specific achievement recognition or improve generic pleasing message")] else []) ++
  (if score.details.structure_res.industry_context < 8 then
    [("industry_context", "Include specific Keboola customer use case from similar industry")] else []) ++
  (if score.details.structure_res.call_to_action = 0 then
    [("cta", "Add clear meeting request call-to-action")] else [])

/-! ## Test runner (`test_runner.py`) -/

/-- Crew output dictionary as read by the test runner.  `dict.get` truthiness
of `validated_linkedin_profile` is non-emptiness of the string. -/
structure CrewOutput where
  subject_line : String := ""
  email_body : String := ""
  follow_up_notes : String := ""
  validated_linkedin_profile : String := ""
deriving Repr, DecidableEq

/-- The three ways `run_single_test` can observe the external generation
pipeline: a parsed output, a `None` from `_execute_crew`, or an exception. -/
inductive ExecOutcome where
  | ok (output : CrewOutput)
  | failed
  | exc (msg : String)
deriving Repr, DecidableEq

/-- The `TestResult` dataclass (wall-clock `execution_time` omitted). -/
structure TestResult where
  prospect_input : Inputs
  passed : Bool
  quality_score : Option QualityScore
  output : Option CrewOutput
  critical_failures : List String
  error : Option String := none
deriving Repr, DecidableEq

/-- Embeds `CrewTestRunner.quality_threshold`. -/
def quality_threshold : Int := 85

/-- Embeds `CrewTestRunner._validate_output`: compose the full email and score it with
the simulated research data. -/
def validate_output (output : CrewOutput) (prospect_input : Inputs) : QualityScore :=
  let full_email := "Subject: " ++ output.subject_line ++ "\n\n" ++ output.email_body
  let research_data : ResearchData :=
    { linkedin_confidence := if !output.validated_linkedin_profile.data.isEmpty then 95 else 80
      achievements := [], company_achievements := [] }
  validate_email full_email research_data prospect_input

/-- Embeds `CrewTestRunner._check_critical_failures`, in source order. -/
def check_critical_failures (output : CrewOutput) (prospect_input : Inputs)
    (quality_score : QualityScore) : List String :=
  let selling_intent := trimL prospect_input.selling_intent.data
  let email_body := output.email_body
  (if output.subject_line.data.isEmpty then ["Missing subject_line"] else []) ++
  (if email_body.data.isEmpty then ["Missing email_body"] else []) ++
  (let first_name := prospect_input.first_name
   if !first_name.data.isEmpty &&
      !(pyIn ("Hi " ++ first_name) email_body || pyIn (first_name ++ ",") email_body) then
     ["First name not properly capitalized in greeting"] else []) ++
  (if !selling_intent.isEmpty && decide (quality_score.intent_score < 12) then
     ["Intent compliance too low: " ++ toString quality_score.intent_score ++
      "/15 (required: >= 12)"] else []) ++
  (if quality_score.details.structure_res.call_to_action < 3 then
     ["Missing or weak call-to-action"] else []) ++
  (if !selling_intent.isEmpty then
     let email_lower := lower email_body.data
     let intent_keywords := (pyWordsL (lower selling_intent)).filter (fun w => w.length > 2)
     if !(intent_keywords.any (fun k => pyInL k email_lower)) then
       ["Generic messaging used despite specific selling_intent provided"] else []
   else [])

/-- Embeds `CrewTestRunner.run_single_test`, with the external pipeline invocation
abstracted into an `ExecOutcome` argument. -/
def run_single_test (prospect_input : Inputs) (exec_outcome : ExecOutcome) : TestResult :=
  match exec_outcome with
  | .exc msg =>
      { prospect_input := prospect_input, passed := false, quality_score := none
        output := none, critical_failures := ["Exception: " ++ msg], error := some msg }
  | .failed =>
      { prospect_input := prospect_input, passed := false, quality_score := none
        output := none, critical_failures := ["Crew execution failed"]
        error := some "Crew execution failed or returned no output" }
  | .ok output =>
      let quality_score := validate_output output prospect_input
      let critical_failures := check_critical_failures output prospect_input quality_score
      let passed :=
        critical_failures.isEmpty && decide (quality_score.total_score ≥ quality_threshold)
      { prospect_input := prospect_input, passed := passed
        quality_score := some quality_score, output := some output
        critical_failures := critical_failures, error := none }

/-- The `TestSuiteResults` dataclass (timestamp omitted; rates exact ℚ). -/
structure TestSuiteResults where
  total_tests : Nat
  passed_tests : Nat
  failed_tests : Nat
  pass_rate : ℚ
  avg_quality_score : ℚ
  results : List TestResult
  failure_patterns : List (String × Nat)
deriving Repr, DecidableEq

/-! ## Failure analyzer (`failure_analyzer.py`) -/

/-- The `FailurePattern` dataclass. -/
structure FailurePattern where
  pattern_type : String
  frequency : Nat
  percentage : ℚ
  affected_agent : String
  affected_task : String
  example_failures : List String
  root_cause : String
  severity : String
deriving Repr, DecidableEq

/-- The `AnalysisReport` dataclass; the two weakness dictionaries are
insertion-ordered association lists, exactly a Python dict. -/
structure AnalysisReport where
  total_failures : Nat
  failure_patterns : List FailurePattern
  agent_weaknesses : List (String × List String)
  task_weaknesses : List (String × List String)
  priority_fixes : List String
  summary : String
deriving Repr, DecidableEq

/-- Embeds `FailureAnalyzer._extract_examples`. -/
def extract_examples (failures : List TestResult) (num_examples : Nat) : List String :=
  (failures.take num_examples).map (fun failure =>
    let ex := "Prospect: " ++ failure.prospect_input.first_name ++ " " ++
      failure.prospect_input.last_name ++ " at " ++ failure.prospect_input.company
    let ex := match failure.quality_score with
      | some qs => ex ++ " | Score: " ++ toString qs.total_score ++ "/100"
      | none => ex
    if failure.critical_failures.isEmpty then ex
    else ex ++ " | Issues: " ++ String.intercalate ", " (failure.critical_failures.take 2))

/-- Embeds `FailureAnalyzer._identify_failure_patterns`. -/
def identify_failure_patterns (test_results : TestSuiteResults) : List FailurePattern :=
  let failures := test_results.results.filter (fun r => !r.passed)
  let total_failures := failures.length
  if total_failures = 0 then []
  else
    let intent_failures := failures.filter (fun f =>
      match f.quality_score with
      | some qs => decide (qs.intent_score < 12)
      | none => false)
    let personalization_failures := failures.filter (fun f =>
      match f.quality_score with
      | some qs => decide (qs.personalization_score < 20)
      | none => false)
    let structure_failures := failures.filter (fun f =>
      match f.quality_score with
      | some qs => decide (qs.structure_score < 28)
      | none => false)
    let message_failures := failures.filter (fun f =>
      match f.quality_score with
      | some qs => decide (qs.message_score < 20)
      | none => false)
    let cta_failures := failures.filter (fun f =>
      pyInL "call-to-action".data (lower (String.intercalate " " f.critical_failures).data))
    (if !intent_failures.isEmpty then
      [{ pattern_type := "intent_compliance", frequency := intent_failures.length
         percentage := (intent_failures.length : ℚ) / (total_failures : ℚ) * 100
         affected_agent := "content_personalizer, email_copywriter"
         affected_task := "personalize_content_task, write_email_task"
         example_failures := extract_examples intent_failures 3
         root_cause := "Agents not properly using selling_intent keywords"
         severity := "critical" }] else []) ++
    (if !personalization_failures.isEmpty then
      [{ pattern_type := "personalization_weak", frequency := personalization_failures.length
         percentage := (personalization_failures.length : ℚ) / (total_failures : ℚ) * 100
         affected_agent := "linkedin_researcher, prospect_researcher"
         affected_task := "linkedin_research_task, research_prospect_task"
         example_failures := extract_examples personalization_failures 3
         root_cause := "Insufficient research or low-confidence findings"
         severity := "high" }] else []) ++
    (if !structure_failures.isEmpty then
      [{ pattern_type := "structure_issues", frequency := structure_failures.length
         percentage := (structure_failures.length : ℚ) / (total_failures : ℚ) * 100
         affected_agent := "email_copywriter"
         affected_task := "write_email_task"
         example_failures := extract_examples structure_failures 3
         root_cause := "Email structure requirements not followed"
         severity := "medium" }] else []) ++
    (if !message_failures.isEmpty then
      [{ pattern_type := "message_quality_low", frequency := message_failures.length
         percentage := (message_failures.length : ℚ) / (total_failures : ℚ) * 100
         affected_agent := "email_copywriter"
         affected_task := "write_email_task"
         example_failures := extract_examples message_failures 3
         root_cause := "Poor tone, length, or subject line quality"
         severity := "medium" }] else []) ++
    (if !cta_failures.isEmpty then
      [{ pattern_type := "missing_cta", frequency := cta_failures.length
         percentage := (cta_failures.length : ℚ) / (total_failures : ℚ) * 100
         affected_agent := "email_copywriter"
         affected_task := "write_email_task"
         example_failures := extract_examples cta_failures 3
         root_cause := "Missing or weak call-to-action"
         severity := "high" }] else [])

/-- Python dict assignment `d[k] = v`: replace in place if the key exists,
append otherwise. -/
def dict_set (k : String) (v : List String) :
    List (String × List String) → List (String × List String)
  | [] => [(k, v)]
  | (k', v') :: rest => if k' = k then (k, v) :: rest else (k', v') :: dict_set k v rest

/-- The per-pattern body of the loop inside `_fallback_analysis`, folded over
the pattern list with the weakness dict and fix list as state. -/
def fallback_loop : List FailurePattern → List (String × List String) → List String →
    List (String × List String) × List String
  | [], agent_weaknesses, priority_fixes => (agent_weaknesses, priority_fixes)
  | p :: rest, agent_weaknesses, priority_fixes =>
    if p.pattern_type = "intent_compliance" then
      fallback_loop rest
        (dict_set "email_copywriter"
          ["Not enforcing selling_intent keywords in subject and body",
           "Allowing generic data platform messaging when specific intent provided"]
          (dict_set "content_personalizer"
            ["Not consistently using selling_intent keywords",
             "May be using generic messaging instead of specific use case"]
            agent_weaknesses))
        (priority_fixes ++
          ["Strengthen selling_intent enforcement in content_personalizer and email_copywriter"])
    else if p.pattern_type = "personalization_weak" then
      fallback_loop rest
        (dict_set "linkedin_researcher"
          ["May not be finding LinkedIn profiles consistently",
           "Confidence threshold may be too conservative"]
          agent_weaknesses)
        (priority_fixes ++ ["Improve LinkedIn research reliability and confidence assessment"])
    else if p.pattern_type = "missing_cta" then
      fallback_loop rest
        (dict_set "email_copywriter"
          ["Not consistently including strong CTAs",
           "May be using weak permission-seeking language"]
          agent_weaknesses)
        (priority_fixes ++ ["Add explicit CTA requirements with examples to email_copywriter"])
    else
      fallback_loop rest agent_weaknesses priority_fixes

/-- Embeds `FailureAnalyzer._fallback_analysis`: deterministic rule-based fallback,
returning (agent weaknesses, task weaknesses, priority fixes, summary). -/
def fallback_analysis (failure_patterns : List FailurePattern) :
    List (String × List String) × List (String × List String) × List String × String :=
  let res := fallback_loop failure_patterns [] []
  let summary := "Found " ++ toString failure_patterns.length ++
    " failure patterns. Primary issues are " ++
    String.intercalate ", " ((failure_patterns.take 3).map (fun p => p.pattern_type)) ++ "."
  (res.1, [], res.2, summary)

/-- Python `line.split(sep, 1)` for a one-character separator, as a pair
(identity in the first component when `sep` does not occur). -/
def split_once (sep : Char) (line : List Char) : List Char × List Char :=
  match splitChar sep line with
  | [] => (line, [])
  | [x] => (x, [])
  | x :: rest => (x, List.intercalate [sep] rest)

/-- Section state of `_parse_llm_response`. -/
inductive ParseSection where
  | start
  | agents
  | tasks
  | priorities
  | summarySec
deriving Repr, DecidableEq

/-- Stringify a trimmed character-list key (for the weakness dictionaries). -/
def strOf (l : List Char) : String := ⟨l⟩

/-- Line loop of `FailureAnalyzer._parse_llm_response`. -/
def parse_llm_loop : List (List Char) → ParseSection →
    List (String × List String) → List (String × List String) → List String → String →
    List (String × List String) × List (String × List String) × List String × String
  | [], _, agent_weaknesses, task_weaknesses, priority_fixes, summary =>
      (agent_weaknesses, task_weaknesses, priority_fixes, strOf (trimL summary.data))
  | l :: rest, sec, agent_weaknesses, task_weaknesses, priority_fixes, summary =>
    let line := trimL l
    if "AGENT WEAKNESSES:".data.isPrefixOf line then
      parse_llm_loop rest .agents agent_weaknesses task_weaknesses priority_fixes summary
    else if "TASK WEAKNESSES:".data.isPrefixOf line then
      parse_llm_loop rest .tasks agent_weaknesses task_weaknesses priority_fixes summary
    else if "PRIORITY FIXES:".data.isPrefixOf line then
      parse_llm_loop rest .priorities agent_weaknesses task_weaknesses priority_fixes summary
    else if "SUMMARY:".data.isPrefixOf line then
      parse_llm_loop rest .summarySec agent_weaknesses task_weaknesses priority_fixes summary
    else if !line.isEmpty then
      match sec with
      | .agents =>
        if line.any (fun c => c == ':') then
          let sp := split_once ':' line
          parse_llm_loop rest sec
            (dict_set (strOf (trimL sp.1)) [strOf (trimL sp.2)] agent_weaknesses)
            task_weaknesses priority_fixes summary
        else parse_llm_loop rest sec agent_weaknesses task_weaknesses priority_fixes summary
      | .tasks =>
        if line.any (fun c => c == ':') then
          let sp := split_once ':' line
          parse_llm_loop rest sec agent_weaknesses
            (dict_set (strOf (trimL sp.1)) [strOf (trimL sp.2)] task_weaknesses)
            priority_fixes summary
        else parse_llm_loop rest sec agent_weaknesses task_weaknesses priority_fixes summary
      | .priorities =>
        if (line.headD 'A').isDigit then
          let fix := if line.any (fun c => c == '.') then strOf (trimL (split_once '.' line).2)
                     else strOf line
          parse_llm_loop rest sec agent_weaknesses task_weaknesses
            (priority_fixes ++ [fix]) summary
        else parse_llm_loop rest sec agent_weaknesses task_weaknesses priority_fixes summary
      | .summarySec =>
        parse_llm_loop rest sec agent_weaknesses task_weaknesses priority_fixes
          (summary ++ strOf line ++ " ")
      | .start =>
        parse_llm_loop rest sec agent_weaknesses task_weaknesses priority_fixes summary
    else
      parse_llm_loop rest sec agent_weaknesses task_weaknesses priority_fixes summary

/-- Embeds `FailureAnalyzer._parse_llm_response`. -/
def parse_llm_response (response_text : String) :
    List (String × List String) × List (String × List String) × List String × String :=
  parse_llm_loop (splitChar '\n' response_text.data) .start [] [] [] ""

/-- Embeds `FailureAnalyzer._llm_analyze`, with the external chat-completion call
abstracted into an `Except` argument: `.ok text` is a successful response,
`.error e` is any raised exception. -/
def llm_analyze (llm_response : Except String String)
    (failure_patterns : List FailurePattern) :
    List (String × List String) × List (String × List String) × List String × String :=
  match llm_response with
  | .ok analysis_text => parse_llm_response analysis_text
  | .error _ => fallback_analysis failure_patterns

/-- Embeds `FailureAnalyzer.analyze_failures` (the yaml context strings only feed the
external prompt, so they do not appear in the result). -/
def analyze_failures (llm_response : Except String String)
    (test_results : TestSuiteResults) : AnalysisReport :=
  let failure_patterns := identify_failure_patterns test_results
  let res := llm_analyze llm_response failure_patterns
  { total_failures := test_results.failed_tests, failure_patterns := failure_patterns
    agent_weaknesses := res.1, task_weaknesses := res.2.1
    priority_fixes := res.2.2.1, summary := res.2.2.2 }

/-! ## Improvement orchestrator (`auto_improve_crew.py`) -/

/-- Terminal outcome of `run_improvement_cycle`, tagged with the iteration
count reported. -/
inductive CycleOutcome where
  | success (iterations : Nat)
  | earlyStop (iterations : Nat)
  | maxIterations (iterations : Nat)
deriving Repr, DecidableEq

/-- Result of one iteration body: stop with a terminal outcome, or continue
with updated `best_pass_rate` / `no_improvement_count`. -/
inductive StepResult where
  | stop (outcome : CycleOutcome)
  | cont (best_pass_rate : ℚ) (no_improvement_count : Nat)
deriving Repr, DecidableEq

/-- The decision part of one loop iteration of `run_improvement_cycle`:
success check first, then the early-stopping counter (increment on
`pass_rate <= best_pass_rate`, stop at 3, reset and record on a strictly
higher pass rate). -/
def cycle_step (target_pass_rate : ℚ) (iteration : Nat) (pass_rate : ℚ)
    (best_pass_rate : ℚ) (no_improvement_count : Nat) : StepResult :=
  if pass_rate ≥ target_pass_rate then .stop (.success iteration)
  else if pass_rate ≤ best_pass_rate then
    if no_improvement_count + 1 ≥ 3 then .stop (.earlyStop iteration)
    else .cont best_pass_rate (no_improvement_count + 1)
  else .cont pass_rate 0

/-- The `while iteration < max_iterations` loop, with the iteration pass rates
abstracted as an oracle `rates` (iteration `i` observes `rates i`, 1-based, as
produced by the test suite); the analyze/adapt steps mutate only the external
prompt stores and never the loop-control state. -/
def run_cycle_aux (target_pass_rate : ℚ) (rates : Nat → ℚ) :
    Nat → Nat → ℚ → Nat → CycleOutcome
  | 0, iteration, _, _ => .maxIterations iteration
  | fuel + 1, iteration, best_pass_rate, no_improvement_count =>
    let i := iteration + 1
    match cycle_step target_pass_rate i (rates i) best_pass_rate no_improvement_count with
    | .stop outcome => outcome
    | .cont b n => run_cycle_aux target_pass_rate rates fuel i b n

/-- Embeds `AutoImprovementOrchestrator.run_improvement_cycle`:
`iteration = 0, best_pass_rate = 0.0, no_improvement_count = 0`. -/
def run_improvement_cycle (target_pass_rate : ℚ) (max_iterations : Nat)
    (rates : Nat → ℚ) : CycleOutcome :=
  run_cycle_aux target_pass_rate rates max_iterations 0 0 0

/-! ## Concrete fixtures used by witnesses and counterexamples -/

/-- A 121-word, 6-paragraph email that scores the maximum on every dimension
simultaneously (greeting, verbatim achievement, customer mention, value
proposition, CTA, full personalization and message credit, no selling
intent). -/
def c1ex_email : String :=
  "Subject: Milan data Deloitte\n\nHi Milan,\n\nCongratulations on your impressive promotion this quarter. We recently helped Home Credit unify their reporting data across many teams, and the results were notable for everyone involved.\n\nGiven your role at Deloitte, I believe we could help you achieve similar results on our platform. Would you be open to a quick demo next week so we can discuss the opportunities together?\n\nOur customers often tell us that a modern approach to analytics makes a real difference for their teams, because clear numbers guide better decisions every single day. The setup is simple, the learning curve is short, and your analysts keep full control of every report they build while sharing insight broadly.\n\nBest regards,\nSarah"

/-- Research data for the maximal-score email: high confidence, a verbatim
achievement, two company achievements. -/
def c1ex_research : ResearchData :=
  { linkedin_confidence := 95, achievements := ["promotion"]
    company_achievements := ["Deloitte consulting", "supply chain expertise"] }

/-- Inputs for the maximal-score email. -/
def c1ex_inputs : Inputs := { first_name := "Milan", company := "Deloitte", title := "CTO" }

/-- The full email of the coffee-machine scenario of the spec: subject
`Coffee Insights`, body as quoted (composed as `Subject: {subject}` plus a
blank line plus the body, exactly as the test runner feeds the scorer). -/
def c3_email : String :=
  "Subject: Coffee Insights\n\nHi Milan,\n\n...coffee machine facilities maintenance...\n\nWhen\x27s the best time for a 15-minute call?"

/-- Inputs of the coffee-machine scenario. -/
def c3_inputs : Inputs := { first_name := "Milan", selling_intent := "coffee machine" }

/-- A well-formed details record for hand-built `QualityScore` fixtures. -/
def sample_details : ScoreDetails :=
  { structure_res := { total := 30, first_name := 5, achievement := 10, industry_context := 10
                       value_proposition := 0, call_to_action := 5 }
    personalization_res := { total := 25, linkedin_confidence := 12, company_research := 8
                             role_relevance := 5 }
    message_res := { total := 25, tone_flow := 12, length_crispness := 8, subject_line := 5 }
    selling_intent_res := { total := 15, intent_specified := some true, keyword_coverage := 15
                            use_case_focus := none, generic_penalty := none } }

/-- A score with `structure_score = 30`: at or above 80 percent of 35 yet
below the source threshold 32. -/
def c4_score : QualityScore :=
  { total_score := 95, structure_score := 30, personalization_score := 25
    message_score := 25, intent_score := 15, details := sample_details }

/-- A score with total 90, in the acceptance band. -/
def c6_score : QualityScore :=
  { total_score := 90, structure_score := 35, personalization_score := 25
    message_score := 25, intent_score := 5, details := sample_details }

/-- Inputs whose selling intent is whitespace only. -/
def c7_inputs : Inputs := { first_name := "Ana", selling_intent := "   " }

/-- Pass-rate oracle realizing the spec sequence 0.40, 0.40, 0.35, 0.30. -/
def c5_rates : Nat → ℚ := fun i =>
  if i = 1 then 2/5 else if i = 2 then 2/5 else if i = 3 then 7/20 else if i = 4 then 3/10 else 0

/-- An empty test-suite result. -/
def c9_suite : TestSuiteResults :=
  { total_tests := 0, passed_tests := 0, failed_tests := 0, pass_rate := 0
    avg_quality_score := 0, results := [], failure_patterns := [] }

/-- A failure pattern fixture with the given type and frequency. -/
def c9_pattern (t : String) (freq : Nat) : FailurePattern :=
  { pattern_type := t, frequency := freq, percentage := 0, affected_agent := ""
    affected_task := "", example_failures := [], root_cause := "", severity := "" }


/-! ## Per-criterion bound lemmas -/

theorem first_name_points_bounds (email : String) (inputs : Inputs) :
    0 ≤ first_name_points email inputs ∧ first_name_points email inputs ≤ 5 := by
  simp only [first_name_points]; split_ifs <;> omega

theorem check_achievement_recognition_bounds (email : String) (research_data : ResearchData) :
    3 ≤ check_achievement_recognition email research_data ∧
    check_achievement_recognition email research_data ≤ 10 := by
  simp only [check_achievement_recognition]; split_ifs <;> omega

theorem check_industry_context_bounds (email : String) (inputs : Inputs) :
    0 ≤ check_industry_context email inputs ∧ check_industry_context email inputs ≤ 10 := by
  simp only [check_industry_context]; split_ifs <;> omega

theorem check_value_proposition_bounds (email : String) (inputs : Inputs) :
    0 ≤ check_value_proposition email inputs ∧ check_value_proposition email inputs ≤ 10 := by
  simp only [check_value_proposition]; split_ifs <;> omega

theorem check_call_to_action_bounds (email : String) :
    0 ≤ check_call_to_action email ∧ check_call_to_action email ≤ 5 := by
  simp only [check_call_to_action]; split_ifs <;> omega

theorem check_company_research_depth_bounds (email : String) (research_data : ResearchData) :
    0 ≤ check_company_research_depth email research_data ∧
    check_company_research_depth email research_data ≤ 10 := by
  simp only [check_company_research_depth]; split_ifs <;> omega

theorem check_role_relevance_bounds (email : String) (inputs : Inputs) :
    2 ≤ check_role_relevance email inputs ∧ check_role_relevance email inputs ≤ 5 := by
  simp only [check_role_relevance]; split_ifs <;> omega

theorem linkedin_confidence_points_bounds (research_data : ResearchData) :
    6 ≤ linkedin_confidence_points research_data ∧
    linkedin_confidence_points research_data ≤ 12 := by
  simp only [linkedin_confidence_points]; split_ifs <;> omega

theorem check_tone_and_flow_bounds (email : String) :
    0 ≤ check_tone_and_flow email ∧ check_tone_and_flow email ≤ 15 := by
  simp only [check_tone_and_flow, min_def]; split_ifs <;> omega

theorem check_length_and_crispness_bounds (email : String) :
    2 ≤ check_length_and_crispness email ∧ check_length_and_crispness email ≤ 10 := by
  simp only [check_length_and_crispness]; split_ifs <;> omega

theorem check_subject_line_bounds (email : String) (inputs : Inputs) :
    0 ≤ check_subject_line email inputs ∧ check_subject_line email inputs ≤ 5 := by
  simp only [check_subject_line, min_def]; split_ifs <;> omega

theorem keyword_coverage_score_bounds (keywords_found n : Nat) :
    0 ≤ keyword_coverage_score keywords_found n ∧
    keyword_coverage_score keywords_found n ≤ 8 := by
  simp only [keyword_coverage_score]; split_ifs <;> omega

theorem use_case_focus_score_bounds (selling_intent email_lower : List Char)
    (intent_keywords : List (List Char)) :
    0 ≤ use_case_focus_score selling_intent email_lower intent_keywords ∧
    use_case_focus_score selling_intent email_lower intent_keywords ≤ 5 := by
  simp only [use_case_focus_score]; split_ifs <;> omega

theorem generic_penalty_score_bounds (selling_intent email_lower : List Char) :
    -3 ≤ generic_penalty_score selling_intent email_lower ∧
    generic_penalty_score selling_intent email_lower ≤ 0 := by
  simp only [generic_penalty_score]; split_ifs <;> omega

theorem check_selling_intent_total_bounds (email : String) (inputs : Inputs) :
    0 ≤ (check_selling_intent_compliance email inputs).total ∧
    (check_selling_intent_compliance email inputs).total ≤ 15 := by
  simp only [check_selling_intent_compliance]
  split_ifs with h
  · exact ⟨by norm_num, by norm_num⟩
  · dsimp only
    have hk := keyword_coverage_score_bounds
      ((intent_keywords_of (trimL (lower inputs.selling_intent.data))).filter
        (fun k => pyInL k (lower email.data))).length
      (intent_keywords_of (trimL (lower inputs.selling_intent.data))).length
    have hu := use_case_focus_score_bounds (trimL (lower inputs.selling_intent.data))
      (lower email.data) (intent_keywords_of (trimL (lower inputs.selling_intent.data)))
    have hg := generic_penalty_score_bounds (trimL (lower inputs.selling_intent.data))
      (lower email.data)
    have hmin1 : (0:Int) ≤ min 5 (use_case_focus_score (trimL (lower inputs.selling_intent.data))
        (lower email.data) (intent_keywords_of (trimL (lower inputs.selling_intent.data)))) :=
      le_min (by norm_num) hu.1
    have hmin2 : min 5 (use_case_focus_score (trimL (lower inputs.selling_intent.data))
        (lower email.data) (intent_keywords_of (trimL (lower inputs.selling_intent.data)))) ≤ 5 :=
      min_le_left _ _
    constructor
    · exact le_max_left _ _
    · apply max_le (by norm_num)
      linarith

theorem structure_total_bounds (email : String) (research_data : ResearchData)
    (inputs : Inputs) :
    3 ≤ (check_structure_compliance email research_data inputs).total ∧
    (check_structure_compliance email research_data inputs).total ≤ 38 := by
  have h1 := first_name_points_bounds email inputs
  have h2 := check_achievement_recognition_bounds email research_data
  have h3 := check_industry_context_bounds email inputs
  have h4 := check_value_proposition_bounds email inputs
  have h5 := check_call_to_action_bounds email
  have h4a : (0:Int) ≤ min 8 (check_value_proposition email inputs) :=
    le_min (by norm_num) h4.1
  have h4b : min 8 (check_value_proposition email inputs) ≤ 8 := min_le_left _ _
  simp only [check_structure_compliance]
  constructor <;> linarith

theorem personalization_total_bounds (email : String) (research_data : ResearchData)
    (inputs : Inputs) :
    8 ≤ (check_personalization_quality email research_data inputs).total ∧
    (check_personalization_quality email research_data inputs).total ≤ 25 := by
  have h1 := linkedin_confidence_points_bounds research_data
  have h2 := check_company_research_depth_bounds email research_data
  have h3 := check_role_relevance_bounds email inputs
  have h2a : (0:Int) ≤ min 8 (check_company_research_depth email research_data) :=
    le_min (by norm_num) h2.1
  have h2b : min 8 (check_company_research_depth email research_data) ≤ 8 := min_le_left _ _
  simp only [check_personalization_quality]
  constructor <;> linarith

theorem message_total_bounds (email : String) (inputs : Inputs) :
    2 ≤ (check_message_quality email inputs).total ∧
    (check_message_quality email inputs).total ≤ 25 := by
  have h1 := check_tone_and_flow_bounds email
  have h2 := check_length_and_crispness_bounds email
  have h3 := check_subject_line_bounds email inputs
  have h1a : (0:Int) ≤ min 12 (check_tone_and_flow email) := le_min (by norm_num) h1.1
  have h1b : min 12 (check_tone_and_flow email) ≤ 12 := min_le_left _ _
  have h2a : (2:Int) ≤ min 8 (check_length_and_crispness email) := le_min (by norm_num) h2.1
  have h2b : min 8 (check_length_and_crispness email) ≤ 8 := min_le_left _ _
  simp only [check_message_quality]
  constructor <;> linarith

/-! ## Claim theorems -/

/-- C1 (amended): for every input triple, the `QualityScore` returned by
`validate_email` satisfies `total = structure + personalization + message +
intent`, all four sub-scores are nonneg, intent is at most 15,
personalization and message are at most 25 — but the structure dimension can
reach 38 (5 + 10 + 10 + 8 + 5) rather than the stated ceiling 35, so the
total is bounded by 103 rather than 100. -/
theorem C1_score_sum_and_bounds (email_content : String) (research_data : ResearchData)
    (inputs : Inputs) :
    (validate_email email_content research_data inputs).total_score =
      (validate_email email_content research_data inputs).structure_score +
      (validate_email email_content research_data inputs).personalization_score +
      (validate_email email_content research_data inputs).message_score +
      (validate_email email_content research_data inputs).intent_score ∧
    0 ≤ (validate_email email_content research_data inputs).total_score ∧
    (validate_email email_content research_data inputs).total_score ≤ 103 ∧
    0 ≤ (validate_email email_content research_data inputs).structure_score ∧
    (validate_email email_content research_data inputs).structure_score ≤ 38 ∧
    0 ≤ (validate_email email_content research_data inputs).personalization_score ∧
    (validate_email email_content research_data inputs).personalization_score ≤ 25 ∧
    0 ≤ (validate_email email_content research_data inputs).message_score ∧
    (validate_email email_content research_data inputs).message_score ≤ 25 ∧
    0 ≤ (validate_email email_content research_data inputs).intent_score ∧
    (validate_email email_content research_data inputs).intent_score ≤ 15 := by
  have hs := structure_total_bounds email_content research_data inputs
  have hp := personalization_total_bounds email_content research_data inputs
  have hm := message_total_bounds email_content inputs
  have hi := check_selling_intent_total_bounds email_content inputs
  simp only [validate_email]
  refine ⟨trivial, ?_, ?_, ?_, ?_, ?_, ?_, ?_, ?_, ?_, ?_⟩ <;> linarith

set_option maxRecDepth 100000 in
/-- C1 counterexample: a concrete email on which `validate_email` returns
`structure_score = 38 > 35` and `total_score = 103 > 100`, refuting the
claimed ceilings `structure <= 35` and `total <= 100`. -/
theorem C1_counterexample :
    (validate_email c1ex_email c1ex_research c1ex_inputs).structure_score = 38 ∧
    (validate_email c1ex_email c1ex_research c1ex_inputs).total_score = 103 ∧
    ¬((validate_email c1ex_email c1ex_research c1ex_inputs).structure_score ≤ 35 ∧
      (validate_email c1ex_email c1ex_research c1ex_inputs).total_score ≤ 100) := by
  decide

/-- C2: a `TestResult` produced by `run_single_test` has `passed = true` iff
its critical-failure list is empty and its quality score exists with total at
least 85; in particular a nonempty critical-failure list forces
`passed = false` regardless of the score. -/
theorem C2_pass_criterion (prospect_input : Inputs) (exec_outcome : ExecOutcome) :
    ((run_single_test prospect_input exec_outcome).passed = true ↔
      (run_single_test prospect_input exec_outcome).critical_failures = [] ∧
      ∃ qs, (run_single_test prospect_input exec_outcome).quality_score = some qs ∧
        qs.total_score ≥ 85) ∧
    ((run_single_test prospect_input exec_outcome).critical_failures ≠ [] →
      (run_single_test prospect_input exec_outcome).passed = false) := by
  cases exec_outcome with
  | exc msg => simp [run_single_test]
  | failed => simp [run_single_test]
  | ok output =>
    constructor
    · simp [run_single_test, quality_threshold, Bool.and_eq_true, List.isEmpty_iff,
        decide_eq_true_eq]
    · simp only [run_single_test]
      intro h
      simp [Bool.and_eq_true, List.isEmpty_iff, h]

/-- C2 witness: a failed execution yields a nonempty critical-failure list
and `passed = false`. -/
theorem C2_pass_criterion_witness :
    (run_single_test {} .failed).critical_failures ≠ [] ∧
    (run_single_test {} .failed).passed = false :=
  ⟨by decide, (C2_pass_criterion {} .failed).2 (by decide)⟩

/-- C3 counterexample: on the coffee-machine scenario email the intent
dimension scores 12 (keyword 8 + use-case 4 + penalty 0), not the claimed
13 to 15. -/
theorem C3_counterexample :
    (check_selling_intent_compliance c3_email c3_inputs).total = 12 ∧
    ¬(13 ≤ (check_selling_intent_compliance c3_email c3_inputs).total ∧
      (check_selling_intent_compliance c3_email c3_inputs).total ≤ 15) := by
  decide

/-- C3 (amended): on the coffee-machine scenario email the scorer finds both
intent keywords (coverage 100 percent, keyword sub-score 8), use-case-focus
exactly 4, generic penalty 0, intent total 12, and the call-to-action
sub-score is exactly 5 (the strong 15-minute-call pattern matches). -/
theorem C3_coffee_scenario :
    ((intent_keywords_of (trimL (lower c3_inputs.selling_intent.data))).filter
      (fun k => pyInL k (lower c3_email.data))).length =
      (intent_keywords_of (trimL (lower c3_inputs.selling_intent.data))).length ∧
    (check_selling_intent_compliance c3_email c3_inputs).keyword_coverage = 8 ∧
    (check_selling_intent_compliance c3_email c3_inputs).use_case_focus = some 4 ∧
    (check_selling_intent_compliance c3_email c3_inputs).generic_penalty = some 0 ∧
    (check_selling_intent_compliance c3_email c3_inputs).total = 12 ∧
    check_call_to_action c3_email = 5 := by
  decide

/-- C4 counterexample: a score with `structure_score = 30` (at least the
claimed 80-percent-of-35 threshold 28) still receives the structure
suggestion, because the source compares against 32. -/
theorem C4_counterexample :
    ((get_improvement_suggestions c4_score).lookup "structure").isSome = true ∧
    ¬(c4_score.structure_score < 28) := by
  decide

/-- C4 (amended): `get_improvement_suggestions` emits the dimension-level
suggestions at the legacy 40/30/30 thresholds: structure iff
`structure_score < 32`, personalization iff `personalization_score < 24`,
message iff `message_score < 24`. -/
theorem C4_suggestion_thresholds (score : QualityScore) :
    (((get_improvement_suggestions score).lookup "structure").isSome ↔
      score.structure_score < 32) ∧
    (((get_improvement_suggestions score).lookup "personalization").isSome ↔
      score.personalization_score < 24) ∧
    (((get_improvement_suggestions score).lookup "message").isSome ↔
      score.message_score < 24) := by
  simp only [get_improvement_suggestions]
  split_ifs <;> simp_all [List.lookup]

/-- Unfolding equation of the orchestrator loop. -/
theorem run_cycle_aux_succ (t : ℚ) (r : Nat → ℚ) (fuel it : Nat) (b : ℚ) (c : Nat) :
    run_cycle_aux t r (fuel + 1) it b c =
      match cycle_step t (it + 1) (r (it + 1)) b c with
      | .stop o => o
      | .cont b2 n2 => run_cycle_aux t r fuel (it + 1) b2 n2 := rfl

/-- C5: on the pass-rate sequence 0.40, 0.40, 0.35, 0.30 (all below the
target) with more than 4 allowed iterations, the orchestrator returns the
early-stop failure outcome right after iteration 4 — regardless of any later
rates, so no 5th iteration runs; moreover one loop step increments the
no-improvement counter exactly when the pass rate is not strictly above the
best seen (stopping once it reaches 3) and resets it to zero on a strictly
higher pass rate. -/
theorem C5_early_stop_and_counter (target_pass_rate : ℚ) (max_iterations : Nat)
    (rates : Nat → ℚ)
    (htarget : 2/5 < target_pass_rate) (hmax : 4 < max_iterations)
    (h1 : rates 1 = 2/5) (h2 : rates 2 = 2/5) (h3 : rates 3 = 7/20) (h4 : rates 4 = 3/10) :
    run_improvement_cycle target_pass_rate max_iterations rates = .earlyStop 4 ∧
    (∀ (iteration : Nat) (pass_rate best_pass_rate : ℚ) (no_improvement_count : Nat),
      pass_rate < target_pass_rate →
      ((pass_rate ≤ best_pass_rate →
         cycle_step target_pass_rate iteration pass_rate best_pass_rate no_improvement_count =
           (if no_improvement_count + 1 ≥ 3 then .stop (.earlyStop iteration)
            else .cont best_pass_rate (no_improvement_count + 1))) ∧
       (best_pass_rate < pass_rate →
         cycle_step target_pass_rate iteration pass_rate best_pass_rate no_improvement_count =
           .cont pass_rate 0))) := by
  constructor
  · obtain ⟨k, rfl⟩ : ∃ k, max_iterations = k + 5 := ⟨max_iterations - 5, by omega⟩
    have s1 : cycle_step target_pass_rate 1 (rates 1) 0 0 = .cont (2/5) 0 := by
      simp only [cycle_step, h1]
      rw [if_neg (not_le.mpr htarget), if_neg (by norm_num)]
    have s2 : cycle_step target_pass_rate 2 (rates 2) (2/5) 0 = .cont (2/5) 1 := by
      simp only [cycle_step, h2]
      rw [if_neg (not_le.mpr htarget), if_pos (by norm_num), if_neg (by norm_num)]
    have s3 : cycle_step target_pass_rate 3 (rates 3) (2/5) 1 = .cont (2/5) 2 := by
      simp only [cycle_step, h3]
      rw [if_neg (not_le.mpr (lt_trans (by norm_num) htarget)), if_pos (by norm_num),
        if_neg (by norm_num)]
    have s4 : cycle_step target_pass_rate 4 (rates 4) (2/5) 2 = .stop (.earlyStop 4) := by
      simp only [cycle_step, h4]
      rw [if_neg (not_le.mpr (lt_trans (by norm_num) htarget)), if_pos (by norm_num),
        if_pos (by norm_num)]
    show run_cycle_aux target_pass_rate rates (k + 5) 0 0 0 = .earlyStop 4
    rw [show k + 5 = (k + 4) + 1 by omega, run_cycle_aux_succ]
    norm_num [s1]
    rw [show k + 4 = (k + 3) + 1 by omega, run_cycle_aux_succ]
    norm_num [s2]
    rw [show k + 3 = (k + 2) + 1 by omega, run_cycle_aux_succ]
    norm_num [s3]
    rw [show k + 2 = (k + 1) + 1 by omega, run_cycle_aux_succ]
    norm_num [s4]
  · intro iteration pass_rate best_pass_rate no_improvement_count hlt
    constructor
    · intro hle
      simp only [cycle_step]
      rw [if_neg (not_le.mpr hlt), if_pos hle]
    · intro hgt
      simp only [cycle_step]
      rw [if_neg (not_le.mpr hlt), if_neg (not_le.mpr hgt)]

/-- C5 witness: with target 0.95, 10 iterations and the concrete oracle
`c5_rates`, the cycle terminates as `earlyStop 4`. -/
theorem C5_early_stop_witness :
    (2/5 : ℚ) < 19/20 ∧ 4 < 10 ∧
    run_improvement_cycle (19/20) 10 c5_rates = CycleOutcome.earlyStop 4 :=
  ⟨by norm_num, by norm_num,
    (C5_early_stop_and_counter (19/20) 10 c5_rates (by norm_num) (by norm_num)
      rfl rfl rfl rfl).1⟩

/-- C6: `should_regenerate` returns `(true, low-quality reason)` below 70,
`(true, single-optimization reason)` in the band 70 to 84, and
`(false, acceptance reason)` at 85 and above. -/
theorem C6_regeneration_thresholds (score : QualityScore) :
    (score.total_score < 70 →
      should_regenerate score = (true, "Low quality score - immediate regeneration required")) ∧
    (70 ≤ score.total_score → score.total_score < 85 →
      should_regenerate score = (true, "Medium quality score - single optimization attempt")) ∧
    (85 ≤ score.total_score →
      should_regenerate score = (false, "Quality score acceptable")) := by
  refine ⟨fun h => ?_, fun h1 h2 => ?_, fun h => ?_⟩
  · unfold should_regenerate; rw [if_pos h]
  · unfold should_regenerate; rw [if_neg (by omega), if_pos h2]
  · unfold should_regenerate; rw [if_neg (by omega), if_neg (by omega)]

/-- C6 witness: a score of 90 is accepted. -/
theorem C6_regeneration_witness :
    (85 ≤ c6_score.total_score) ∧
    should_regenerate c6_score = (false, "Quality score acceptable") :=
  ⟨by decide, (C6_regeneration_thresholds c6_score).2.2 (by decide)⟩

/-- C7: whenever the selling intent is empty or whitespace after lowering and
stripping (in particular when the key is absent, i.e. the default empty
string), the intent sub-score of `validate_email` is exactly 15. -/
theorem C7_no_intent_full_score (email : String) (research_data : ResearchData)
    (inputs : Inputs)
    (h : (trimL (lower inputs.selling_intent.data)).isEmpty = true) :
    (validate_email email research_data inputs).intent_score = 15 := by
  simp only [validate_email, check_selling_intent_compliance, h]
  rfl

/-- C7 witness: a whitespace-only selling intent scores 15 on any email. -/
theorem C7_no_intent_witness :
    (trimL (lower c7_inputs.selling_intent.data)).isEmpty = true ∧
    (validate_email "hello" {} c7_inputs).intent_score = 15 :=
  ⟨by decide, C7_no_intent_full_score "hello" {} c7_inputs (by decide)⟩

/-- Helper: with first name `Milan` the greeting credit reduces to the
presence of the literal salutation `Hi Milan`. -/
theorem first_name_points_of_milan (email : String) (inputs : Inputs)
    (h1 : inputs.first_name = "Milan") :
    first_name_points email inputs = (if pyInL "Hi Milan".data email.data then 5 else 0) := by
  have e1 : trimL "Milan".data = "Milan".data := by decide
  have e2 : ("Milan".data).isEmpty = false := by decide
  have e3 : (("Milan".data).headD 'A').isUpper = true := by decide
  have e4 : "Hi ".data ++ "Milan".data = "Hi Milan".data := by decide
  simp only [first_name_points, h1, e1, e2, e3, e4, Bool.not_false, Bool.true_and]

/-- C8: the 5-point greeting credit is awarded iff the stripped first name is
nonempty, starts with an upper-case letter, and the salutation
`Hi {first_name}` occurs verbatim in the email; in particular with
`first_name = "Milan"` any email containing `Hi Milan` earns the 5 points, an
email without `Hi Milan` (e.g. one containing only `Hi milan`) earns 0, and a
lower-case `first_name = "milan"` never earns the credit. -/
theorem C8_greeting_credit (email : String) (research_data : ResearchData) (inputs : Inputs) :
    ((validate_email email research_data inputs).details.structure_res.first_name = 5 ↔
      (trimL inputs.first_name.data ≠ [] ∧
       ((trimL inputs.first_name.data).headD 'A').isUpper = true ∧
       pyInL ("Hi ".data ++ trimL inputs.first_name.data) email.data = true)) ∧
    (inputs.first_name = "Milan" → pyInL "Hi Milan".data email.data = true →
      (validate_email email research_data inputs).details.structure_res.first_name = 5) ∧
    (inputs.first_name = "Milan" → pyInL "Hi Milan".data email.data = false →
      (validate_email email research_data inputs).details.structure_res.first_name = 0) ∧
    (inputs.first_name = "milan" →
      (validate_email email research_data inputs).details.structure_res.first_name = 0) := by
  have hproj : (validate_email email research_data inputs).details.structure_res.first_name =
      first_name_points email inputs := rfl
  refine ⟨?_, ?_, ?_, ?_⟩
  · rw [hproj]
    simp only [first_name_points]
    split_ifs with h <;>
      simp_all [Bool.and_eq_true, Bool.not_eq_true', List.isEmpty_iff, List.isEmpty_eq_false]
  · intro h1 h2
    rw [hproj, first_name_points_of_milan email inputs h1, if_pos h2]
  · intro h1 h2
    rw [hproj, first_name_points_of_milan email inputs h1, if_neg (by simp [h2])]
  · intro h1
    have e1 : trimL "milan".data = "milan".data := by decide
    have e3 : (("milan".data).headD 'A').isUpper = false := by decide
    rw [hproj]
    simp [first_name_points, h1, e1, e3]

/-- C8 witness: an email containing `Hi Milan` with first name `Milan` earns
the greeting credit. -/
theorem C8_greeting_witness :
    (({ first_name := "Milan" } : Inputs).first_name = "Milan") ∧
    pyInL "Hi Milan".data "Say Hi Milan, hello".data = true ∧
    (validate_email "Say Hi Milan, hello" {}
      { first_name := "Milan" }).details.structure_res.first_name = 5 :=
  ⟨rfl, by decide, (C8_greeting_credit "Say Hi Milan, hello" {} { first_name := "Milan" }).2.1
    rfl (by decide)⟩

/-- Helper: the fallback loop depends only on the sequence of pattern types. -/
theorem fallback_loop_congr (p : List FailurePattern) : ∀ (q : List FailurePattern)
    (aw : List (String × List String)) (fx : List String),
    p.map FailurePattern.pattern_type = q.map FailurePattern.pattern_type →
    fallback_loop p aw fx = fallback_loop q aw fx := by
  induction p with
  | nil =>
    intro q aw fx h
    cases q with
    | nil => rfl
    | cons b bs => simp at h
  | cons a rest ih =>
    intro q aw fx h
    cases q with
    | nil => simp at h
    | cons b bs =>
      simp only [List.map_cons, List.cons.injEq] at h
      obtain ⟨hab, hrest⟩ := h
      simp only [fallback_loop, hab]
      split_ifs <;> exact ih bs _ _ hrest

/-- Helper: the whole fallback analysis depends only on the sequence of
pattern types. -/
theorem fallback_analysis_congr (p q : List FailurePattern)
    (h : p.map FailurePattern.pattern_type = q.map FailurePattern.pattern_type) :
    fallback_analysis p = fallback_analysis q := by
  have hlen : p.length = q.length := by
    rw [← List.length_map p FailurePattern.pattern_type, h, List.length_map]
  have htake : (p.take 3).map FailurePattern.pattern_type =
      (q.take 3).map FailurePattern.pattern_type := by
    rw [List.map_take, h, ← List.map_take]
  simp only [fallback_analysis]
  rw [fallback_loop_congr p q [] [] h, hlen, htake]

/-- C9: when the external completion call raises, `analyze_failures` returns
the report whose weaknesses, fixes and summary come from the deterministic
rule-based fallback on the detected patterns; and the fallback depends only
on the detected pattern types — equal type sequences give equal fallback
analyses. -/
theorem C9_llm_failure_fallback (e : String) (test_results : TestSuiteResults) :
    (analyze_failures (.error e) test_results =
      { total_failures := test_results.failed_tests
        failure_patterns := identify_failure_patterns test_results
        agent_weaknesses := (fallback_analysis (identify_failure_patterns test_results)).1
        task_weaknesses := (fallback_analysis (identify_failure_patterns test_results)).2.1
        priority_fixes := (fallback_analysis (identify_failure_patterns test_results)).2.2.1
        summary := (fallback_analysis (identify_failure_patterns test_results)).2.2.2 }) ∧
    (∀ p q : List FailurePattern,
      p.map FailurePattern.pattern_type = q.map FailurePattern.pattern_type →
      fallback_analysis p = fallback_analysis q) :=
  ⟨rfl, fallback_analysis_congr⟩

/-- C9 witness: two missing-CTA patterns differing in frequency produce the
same fallback analysis. -/
theorem C9_llm_failure_witness :
    [c9_pattern "missing_cta" 1].map FailurePattern.pattern_type =
      [c9_pattern "missing_cta" 7].map FailurePattern.pattern_type ∧
    fallback_analysis [c9_pattern "missing_cta" 1] =
      fallback_analysis [c9_pattern "missing_cta" 7] :=
  ⟨by decide, (C9_llm_failure_fallback "boom" c9_suite).2 [c9_pattern "missing_cta" 1]
    [c9_pattern "missing_cta" 7] (by decide)⟩

/-- C10: the scorer has a strictly positive floor: achievement at least 3,
LinkedIn confidence at least 6, role relevance at least 2, length/crispness
at least 2, hence every total score is at least 13 — a total of 0 is
unreachable. -/
theorem C10_positive_floor (email_content : String) (research_data : ResearchData)
    (inputs : Inputs) :
    3 ≤ (validate_email email_content research_data inputs).details.structure_res.achievement ∧
    6 ≤ (validate_email email_content research_data
          inputs).details.personalization_res.linkedin_confidence ∧
    2 ≤ (validate_email email_content research_data
          inputs).details.personalization_res.role_relevance ∧
    2 ≤ (validate_email email_content research_data inputs).details.message_res.length_crispness ∧
    13 ≤ (validate_email email_content research_data inputs).total_score := by
  have hs := structure_total_bounds email_content research_data inputs
  have hp := personalization_total_bounds email_content research_data inputs
  have hm := message_total_bounds email_content inputs
  have hi := check_selling_intent_total_bounds email_content inputs
  have ha := check_achievement_recognition_bounds email_content research_data
  have hl := linkedin_confidence_points_bounds research_data
  have hr := check_role_relevance_bounds email_content inputs
  have hlen := check_length_and_crispness_bounds email_content
  have hlen2 : (2:Int) ≤ min 8 (check_length_and_crispness email_content) :=
    le_min (by norm_num) hlen.1
  have hfn := first_name_points_bounds email_content inputs
  have hind := check_industry_context_bounds email_content inputs
  have hvp := check_value_proposition_bounds email_content inputs
  have hvp2 : (0:Int) ≤ min 8 (check_value_proposition email_content inputs) :=
    le_min (by norm_num) hvp.1
  have hcta := check_call_to_action_bounds email_content
  have hcr := check_company_research_depth_bounds email_content research_data
  have hcr2 : (0:Int) ≤ min 8 (check_company_research_depth email_content research_data) :=
    le_min (by norm_num) hcr.1
  have htone := check_tone_and_flow_bounds email_content
  have htone2 : (0:Int) ≤ min 12 (check_tone_and_flow email_content) :=
    le_min (by norm_num) htone.1
  have hsubj := check_subject_line_bounds email_content inputs
  simp only [validate_email, check_structure_compliance, check_personalization_quality,
    check_message_quality]
  refine ⟨?_, ?_, ?_, ?_, ?_⟩ <;> linarith

end EmailSys
